import Mathlib

/-!
Verification of the MemoriGraph user-lifecycle, session-recording and
profile-search workflow, shallowly embedded from the Python source
(src/utils/graph_operations.py, src/services, src/api/v1/routes).

The graph store is a list of nodes and a list of relationships.  Queries
issued by the repository are rendered as Lean functions over this state.
Nondeterministic inputs of the real system (freshly generated UUIDs,
timestamps, and whether a driver call raises) are explicit parameters.
Neo4j returns rows of an unordered MATCH in an unspecified order; the
embedding refines this to list order, so LIMIT 1 becomes the first match.
-/

/-- A stored graph node.  Covers both Entity nodes (labels contain
"Entity", e.g. User nodes carry labels ["User", "Person", "Entity"]) and
Episodic nodes (labels contain "Episodic").  The `summary` field holds the
free-text body, `created_at` an abstract timestamp. -/
structure Node where
  uuid : String
  name : String
  group_id : String
  labels : List String
  summary : Option String
  created_at : Nat
deriving DecidableEq, Repr

/-- A stored relationship.  HAS_SESSION ownership links and the knowledge
engine's fact-bearing RELATES_TO edges are both relationships in the one
store; fact edges carry a fact string and optional validity bounds. -/
structure Edge where
  uuid : String
  relType : String
  src : String
  dst : String
  group_id : String
  fact : String
  valid_at : Option Nat
  invalid_at : Option Nat
deriving DecidableEq, Repr

/-- The whole graph-store state. -/
structure Graph where
  nodes : List Node
  edges : List Edge
deriving DecidableEq, Repr

/-- The find query of create_or_get_user_node
(src/utils/graph_operations.py lines 35-40):
MATCH (user:Entity \x7bgroup_id: $group_id\x7d)
WHERE "User" IN labels(user) OR user.name = $user_name LIMIT 1. -/
def find_user_query (g : Graph) (group_id user_name : String) : Option Node :=
  g.nodes.find? fun n =>
    n.labels.contains "Entity" && n.group_id == group_id &&
      (n.labels.contains "User" || n.name == user_name)

/-- The fresh User EntityNode create_or_get_user_node constructs
(src/utils/graph_operations.py lines 57-66): labels ["User", "Person",
"Entity"], summary "User profile for ...".  The try/except around the
lookup is rendered by `findFails`: when the driver call raises, the
exception is swallowed and the function falls through to creation. -/
def mkUserNode (user_name user_id freshUuid : String)
    (freshTime : Nat) : Node :=
  { uuid := freshUuid
    name := user_name
    group_id := user_id
    labels := ["User", "Person", "Entity"]
    summary := some ("User profile for " ++ user_name)
    created_at := freshTime }

/-- create_or_get_user_node (src/utils/graph_operations.py lines 15-75),
continued: look up, and on no result (or a swallowed lookup failure)
create, save and return a fresh User node. -/
def create_or_get_user_node (g : Graph) (user_name user_id : String)
    (findFails : Bool) (freshUuid : String) (freshTime : Nat) : Node × Graph :=
  let found := if findFails then none else find_user_query g user_id user_name
  match found with
  | some n => (n, g)
  | none =>
    let user_node := mkUserNode user_name user_id freshUuid freshTime
    (user_node, { g with nodes := g.nodes ++ [user_node] })

/-- Count of Episodic nodes scoped to a user, the session-count query of
SessionService._get_next_session_number (src/services/session_service.py
lines 67-70): MATCH (session:Episodic \x7bgroup_id: $user_id\x7d)
RETURN count(session). -/
def countEpisodic (g : Graph) (user_id : String) : Nat :=
  (g.nodes.filter fun n =>
    n.labels.contains "Episodic" && n.group_id == user_id).length

/-- SessionService._get_next_session_number (src/services/session_service.py
lines 56-83): count + 1, except that when the count query raises the
exception is swallowed and 1 is returned. -/
def _get_next_session_number (g : Graph) (user_id : String)
    (queryFails : Bool) : Nat :=
  if queryFails then 1 else countEpisodic g user_id + 1

/-- add_session_to_graph (src/utils/graph_operations.py lines 122-157).
Prefixes the summary with the synthetic header and submits it as an
episode.  The ingestion by graphiti.add_episode is modelled from the spec:
the knowledge engine ingests exactly one Episodic node scoped by the
supplied group id (entity extraction is out of scope).  Returns the
episode uuid. -/
def add_session_to_graph (g : Graph) (session_summary : String)
    (session_date : Nat) (session_number : Nat) (user_id user_name : String)
    (freshEpisodeUuid : String) : String × Graph :=
  let enhanced :=
    "Session " ++ toString session_number ++ " for " ++ user_name ++ ": "
      ++ session_summary
  let episode : Node :=
    { uuid := freshEpisodeUuid
      name := "Therapy Session " ++ toString session_number
      group_id := user_id
      labels := ["Episodic"]
      summary := some enhanced
      created_at := session_date }
  (freshEpisodeUuid, { g with nodes := g.nodes ++ [episode] })

/-- SessionService.add_session (src/services/session_service.py lines
20-54): uses the supplied session number when given, otherwise computes
the next one, then records the episode.  Returns ((episode uuid, session
number), new state). -/
def add_session (g : Graph) (session_summary : String) (session_date : Nat)
    (user_id user_name : String) (session_number : Option Nat)
    (countFails : Bool) (freshEpisodeUuid : String) : (String × Nat) × Graph :=
  let n := match session_number with
    | some k => k
    | none => _get_next_session_number g user_id countFails
  let r :=
    add_session_to_graph g session_summary session_date n user_id user_name
      freshEpisodeUuid
  ((r.1, n), r.2)

/-- Whether a HAS_SESSION ownership link from the user node to the session
node is already present (the WHERE NOT clause of the link query). -/
def has_session_link (g : Graph) (user_uuid session_uuid : String) : Bool :=
  g.edges.any fun e =>
    e.relType == "HAS_SESSION" && e.src == user_uuid && e.dst == session_uuid

/-- The session rows matched by the link query: MATCH (session:Episodic
\x7bgroup_id: $group_id\x7d) WHERE NOT (user)-[:HAS_SESSION]->(session). -/
def unlinkedSessions (g : Graph) (user_uuid user_id : String) : List Node :=
  g.nodes.filter fun s =>
    s.labels.contains "Episodic" && s.group_id == user_id &&
      !(has_session_link g user_uuid s.uuid)

/-- The HAS_SESSION relationship the link query CREATEs for one matched
session row. -/
def mkSessionLink (user_uuid user_id : String) (s : Node) : Edge :=
  { uuid := user_uuid ++ "-HAS_SESSION-" ++ s.uuid
    relType := "HAS_SESSION"
    src := user_uuid
    dst := s.uuid
    group_id := user_id
    fact := ""
    valid_at := none
    invalid_at := none }

/-- link_sessions_to_user (src/utils/graph_operations.py lines 78-119):
when an Entity node bearing the user uuid is matched, CREATE one link per
unlinked scoped session and RETURN count(session); when the user match is
empty the aggregation over zero rows yields 0; any failure is swallowed
and 0 is returned.  Returns (number of links created, new state). -/
def link_sessions_to_user (g : Graph) (user_node : Node) (user_id : String)
    (queryFails : Bool) : Nat × Graph :=
  if queryFails then (0, g)
  else if g.nodes.any fun n =>
      n.labels.contains "Entity" && n.uuid == user_node.uuid then
    ((unlinkedSessions g user_node.uuid user_id).length,
     { g with
        edges := g.edges ++ ((unlinkedSessions g user_node.uuid
          user_id).map (mkSessionLink user_node.uuid user_id)) })
  else (0, g)

/-- Result record of delete_user_data. -/
structure DeleteResult where
  user_id : String
  deleted_nodes : Nat
  deleted_relationships : Nat
  status : String
deriving DecidableEq, Repr

/-- Whether the node bearing this uuid is scoped to the user (used to
decide which relationships are incident to scoped nodes). -/
def scopedNode (g : Graph) (user_id uuid : String) : Bool :=
  g.nodes.any fun n => n.uuid == uuid && n.group_id == user_id

/-- The pre-deletion node count of delete_user_data: MATCH (n) WHERE
n.group_id = $user_id, count(DISTINCT n). -/
def countScopedNodes (g : Graph) (user_id : String) : Nat :=
  (g.nodes.filter fun n => n.group_id == user_id).length

/-- The pre-deletion relationship count of delete_user_data: OPTIONAL
MATCH (n)-[r]-(), count(DISTINCT r) — every relationship with at least one
endpoint scoped to the user, counted once. -/
def countIncidentRels (g : Graph) (user_id : String) : Nat :=
  (g.edges.filter fun e =>
    scopedNode g user_id e.src || scopedNode g user_id e.dst).length

/-- delete_user_data (src/utils/graph_operations.py lines 160-236):
two phases — count nodes scoped to the user and their incident
relationships; if the node count is zero return "no_data_found" with zero
counts and no mutation; otherwise DETACH DELETE every scoped node
(removing all incident relationships), reporting the matched node count
and the phase-one relationship count with status "success". -/
def delete_user_data (g : Graph) (user_id : String) : DeleteResult × Graph :=
  if countScopedNodes g user_id == 0 then
    ({ user_id := user_id, deleted_nodes := 0, deleted_relationships := 0,
       status := "no_data_found" }, g)
  else
    ({ user_id := user_id
       deleted_nodes := countScopedNodes g user_id
       deleted_relationships := countIncidentRels g user_id
       status := "success" },
     { nodes := g.nodes.filter fun n => !(n.group_id == user_id)
       edges := g.edges.filter fun e =>
         !(scopedNode g user_id e.src || scopedNode g user_id e.dst) })

/-- A single profile search result (models.schemas.ProfileResult). -/
structure ProfileResult where
  uuid : String
  fact : String
  valid_at : Option Nat
  invalid_at : Option Nat
deriving DecidableEq, Repr

/-- Modelled from the spec: the knowledge engine's hybrid search
(graphiti.search), which the repository only calls.  Ranking and relevance
are abstracted into the predicate `rel` chosen by the engine for the given
query; the scope is the whole store unless a group restriction is passed,
in which case only elements of those groups are consulted.  The repository
never passes a group restriction (src/services/profile_service.py lines
35-41 forward only query and optional center node). -/
def graphiti_search (g : Graph) (rel : Edge → Bool)
    (group_ids : Option (List String)) : List Edge :=
  let inScope := match group_ids with
    | none => g.edges
    | some gs => g.edges.filter fun e => gs.contains e.group_id
  inScope.filter rel

/-- ProfileService.search_profile (src/services/profile_service.py lines
20-54): delegates to the engine search (with or without a center node for
reranking — reranking permutes, so membership is unchanged) and wraps each
result as a ProfileResult. -/
def search_profile (g : Graph) (rel : Edge → Bool)
    (center_node_uuid : Option String) : List ProfileResult :=
  let results := match center_node_uuid with
    | some _ => graphiti_search g rel none
    | none => graphiti_search g rel none
  results.map fun r =>
    { uuid := r.uuid, fact := r.fact
      valid_at := r.valid_at, invalid_at := r.invalid_at }

/-- Outcome of an HTTP route handler: a success status with a body, or an
HTTPException status with a detail string. -/
inductive RouteResult (α : Type) where
  | ok : Nat → α → RouteResult α
  | err : Nat → String → RouteResult α
deriving DecidableEq, Repr

/-- The HTTP status carried by a route outcome. -/
def RouteResult.status {α : Type} : RouteResult α → Nat
  | .ok s _ => s
  | .err s _ => s

/-- Response body of the user endpoints (models.schemas.UserResponse). -/
structure UserResponse where
  user_id : String
  user_name : String
  uuid : String
  created_at : Nat
  summary : Option String
deriving DecidableEq, Repr

/-- Response body of the deletion endpoint
(models.schemas.DeleteUserResponse). -/
structure DeleteUserResponse where
  user_id : String
  deleted_nodes : Nat
  deleted_relationships : Nat
  status : String
  message : String
deriving DecidableEq, Repr

/-- Response body of the session endpoint (models.schemas.SessionResponse). -/
structure SessionResponse where
  session_id : String
  session_number : Nat
  session_date : Nat
  episode_uuid : String
  message : String
deriving DecidableEq, Repr

/-- Response body of the profile search endpoints
(models.schemas.ProfileQueryResponse). -/
structure ProfileQueryResponse where
  query : String
  results : List ProfileResult
  count : Nat
deriving DecidableEq, Repr

/-- POST /api/v1/users (src/api/v1/routes/users.py lines 26-65).
`upstream` carries the message of an exception raised by the service call;
the generic handler turns it into a 400 whose detail embeds the message.
On success the body echoes user_id and user_name from the request and
takes uuid, created_at and summary from the node the service returned. -/
def create_user (g : Graph) (user_name user_id : String)
    (upstream : Option String) (findFails : Bool) (freshUuid : String)
    (freshTime : Nat) : RouteResult UserResponse × Graph :=
  match upstream with
  | some msg => (.err 400 ("Failed to create user: " ++ msg), g)
  | none =>
    let r :=
      create_or_get_user_node g user_name user_id findFails freshUuid freshTime
    (.ok 201
      { user_id := user_id
        user_name := user_name
        uuid := r.1.uuid
        created_at := r.1.created_at
        summary := r.1.summary }, r.2)

/-- The lookup of GET /api/v1/users/\x7buser_id\x7d and of the sessions
route (users.py lines 85-91, sessions.py lines 57-62): MATCH (user:Entity
\x7bgroup_id: $group_id\x7d) WHERE "User" IN labels(user) LIMIT 1 —
unlike find_user_query there is no name clause here. -/
def find_user_by_label (g : Graph) (group_id : String) : Option Node :=
  g.nodes.find? fun n =>
    n.labels.contains "Entity" && n.group_id == group_id &&
      n.labels.contains "User"

/-- GET /api/v1/users/\x7buser_id\x7d (src/api/v1/routes/users.py lines
68-125).  A missing user is a 404; but the generic except clause also maps
any raised exception to a 404 whose detail embeds the upstream message
(users.py lines 120-125), not to a 400.  On success the body's user_name
is the stored node's name. -/
def get_user (g : Graph) (user_id : String) (upstream : Option String) :
    RouteResult UserResponse :=
  match upstream with
  | some msg => .err 404 ("User not found: " ++ msg)
  | none =>
    match find_user_by_label g user_id with
    | none => .err 404 ("User with ID " ++ user_id ++ " not found")
    | some n =>
      .ok 200
        { user_id := user_id
          user_name := n.name
          uuid := n.uuid
          created_at := n.created_at
          summary := n.summary }

/-- DELETE /api/v1/users/\x7buser_id\x7d (src/api/v1/routes/users.py lines
128-183): no_data_found becomes a 404; any raised exception becomes a 400
whose detail embeds the message; otherwise a 200 with the deletion counts. -/
def delete_user_route (g : Graph) (user_id : String)
    (upstream : Option String) : RouteResult DeleteUserResponse × Graph :=
  match upstream with
  | some msg => (.err 400 ("Failed to delete user data: " ++ msg), g)
  | none =>
    let r := delete_user_data g user_id
    if r.1.status == "no_data_found" then
      (.err 404 ("No data found for user " ++ user_id), r.2)
    else
      (.ok 200
        { user_id := r.1.user_id
          deleted_nodes := r.1.deleted_nodes
          deleted_relationships := r.1.deleted_relationships
          status := r.1.status
          message := "Successfully deleted all data for user " ++ user_id },
       r.2)

/-- The user-resolution step of POST /api/v1/sessions/\x7buser_id\x7d
(src/api/v1/routes/sessions.py lines 53-77): look up the User node by
label; if absent, create one with the default name "User_" ++ user_id. -/
def create_session_user (g : Graph) (user_id : String) (findFails : Bool)
    (freshUserUuid : String) (freshTime : Nat) : Node × Graph :=
  match find_user_by_label g user_id with
  | some u => (u, g)
  | none =>
    create_or_get_user_node g ("User_" ++ user_id) user_id findFails
      freshUserUuid freshTime

/-- POST /api/v1/sessions/\x7buser_id\x7d, continued: resolve the user,
record the session, respond 201 (the background linking task runs after
the response and is modelled as the separate link_sessions_to_user step).
Any raised exception becomes a 400 whose detail embeds the message. -/
def create_session (g : Graph) (user_id : String)
    (session_summary : String) (session_date : Nat)
    (session_number : Option Nat) (upstream : Option String)
    (findFails countFails : Bool) (freshUserUuid freshEpisodeUuid : String)
    (freshTime : Nat) : RouteResult SessionResponse × Graph :=
  match upstream with
  | some msg => (.err 400 ("Failed to add session: " ++ msg), g)
  | none =>
    let ur := create_session_user g user_id findFails freshUserUuid freshTime
    let ar :=
      add_session ur.2 session_summary session_date user_id ur.1.name
        session_number countFails freshEpisodeUuid
    (.ok 201
      { session_id := user_id ++ "_session_" ++ toString ar.1.2
        session_number := ar.1.2
        session_date := session_date
        episode_uuid := ar.1.1
        message := "Session " ++ toString ar.1.2 ++ " added successfully" },
     ar.2)

/-- POST /api/v1/profile/search (src/api/v1/routes/profile.py lines
29-64).  The request body carries a user_id, but the handler passes only
the query to the service — no group restriction reaches the engine; the
user_id is used for logging alone.  Any raised exception becomes a 400
whose detail embeds the message. -/
def search_profile_route (g : Graph) (query user_id : String)
    (rel : Edge → Bool) (upstream : Option String) :
    RouteResult ProfileQueryResponse :=
  match upstream with
  | some msg => .err 400 ("Failed to search profile: " ++ msg)
  | none =>
    let results := search_profile g rel none
    .ok 200 { query := query, results := results, count := results.length }

/-- POST /api/v1/profile/search/center-node (src/api/v1/routes/profile.py
lines 67-111): the same service call with the request's center node uuid
passed through for graph-distance reranking (a permutation of the result
sequence, so membership is unchanged); here too the request's user_id is
only logged, never passed to the engine.  Any raised exception becomes a
400 whose detail embeds the message. -/
def search_with_center_node (g : Graph)
    (query center_node_uuid user_id : String) (rel : Edge → Bool)
    (upstream : Option String) : RouteResult ProfileQueryResponse :=
  match upstream with
  | some msg => .err 400 ("Failed to search profile: " ++ msg)
  | none =>
    let results := search_profile g rel (some center_node_uuid)
    .ok 200 { query := query, results := results, count := results.length }

/-- Number of User-labelled nodes in one partition: the quantity the
at-most-one-User-per-partition-key invariant bounds. -/
def countUsers (g : Graph) (gid : String) : Nat :=
  (g.nodes.filter fun n =>
    n.group_id == gid && n.labels.contains "User").length

/-- Structural well-formedness of the store: every User-labelled node also
carries the Entity label (true of every node the system writes — created
User nodes carry ["User", "Person", "Entity"], episodes carry
["Episodic"]).  The user-lookup queries match on :Entity, so this is what
makes a User node findable. -/
def usersHaveEntityLabel (g : Graph) : Bool :=
  g.nodes.all fun n =>
    !(n.labels.contains "User") || n.labels.contains "Entity"

/-- Fixture: a stored User node in partition "g". -/
def userNodeG : Node :=
  { uuid := "u1", name := "Bob", group_id := "g"
    labels := ["User", "Person", "Entity"], summary := none, created_at := 0 }

/-- Fixture: a non-User Entity in partition "g" named "Alice" (as produced
by the knowledge engine's entity extraction). -/
def shadowNodeG : Node :=
  { uuid := "e1", name := "Alice", group_id := "g"
    labels := ["Entity"], summary := none, created_at := 0 }

/-- Fixture: an Episodic session node in partition "g". -/
def sessionNodeG : Node :=
  { uuid := "s1", name := "Therapy Session 1", group_id := "g"
    labels := ["Episodic"], summary := some "body", created_at := 0 }

/-- Fixture: a HAS_SESSION link from the fixture user to the fixture
session. -/
def hsEdgeG : Edge :=
  { uuid := "u1-HAS_SESSION-s1", relType := "HAS_SESSION", src := "u1"
    dst := "s1", group_id := "g", fact := "", valid_at := none
    invalid_at := none }

/-- Fixture graph for the deletion claims: two nodes scoped to "g" and one
relationship between them. -/
def gDel : Graph := { nodes := [userNodeG, sessionNodeG], edges := [hsEdgeG] }

/-- Fixture graph holding just the fixture User node. -/
def gU : Graph := { nodes := [userNodeG], edges := [] }

/-- Fixture graph where the shadow entity precedes the User node. -/
def gShadow : Graph := { nodes := [shadowNodeG, userNodeG], edges := [] }

/-- Fixture: a fact edge belonging to partition "u2". -/
def leakEdge : Edge :=
  { uuid := "f1", relType := "RELATES_TO", src := "a", dst := "b"
    group_id := "u2", fact := "likes skiing", valid_at := none
    invalid_at := none }

/-- Helper: filtering with a predicate after filtering with its negation
yields nothing. -/
theorem filter_not_filter {α : Type} (p : α → Bool) (l : List α) :
    (l.filter fun a => !(p a)).filter p = [] := by
  induction l with
  | nil => rfl
  | cons a t ih =>
    by_cases h : p a = true
    · simp [List.filter_cons, h, ih]
    · simp only [Bool.not_eq_true] at h
      simp [List.filter_cons, h, ih]

/-- C3: a user identifier with zero scoped nodes gets status no_data_found
with zero counts from delete_user_data, and the graph state is unchanged
(no mutating query is issued). -/
theorem delete_user_data_no_data (g : Graph) (uid : String)
    (h : countScopedNodes g uid = 0) :
    delete_user_data g uid =
      ({ user_id := uid, deleted_nodes := 0, deleted_relationships := 0,
         status := "no_data_found" }, g) := by
  unfold delete_user_data
  simp [h]

/-- Witness for delete_user_data_no_data at the empty graph. -/
theorem delete_user_data_no_data_witness :
    countScopedNodes { nodes := [], edges := [] } "u1" = 0 ∧
    delete_user_data { nodes := [], edges := [] } "u1" =
      ({ user_id := "u1", deleted_nodes := 0, deleted_relationships := 0,
         status := "no_data_found" }, { nodes := [], edges := [] }) :=
  ⟨rfl, delete_user_data_no_data { nodes := [], edges := [] } "u1" rfl⟩

/-- C2: when N nodes are scoped to the identifier (N nonzero) with M
incident relationships, delete_user_data reports deleted_nodes = N and
deleted_relationships = M — the counts of the pre-deletion counting phase —
with status success, and afterwards zero nodes scoped to the identifier
remain. -/
theorem delete_user_data_counts (g : Graph) (uid : String)
    (h : countScopedNodes g uid ≠ 0) :
    (delete_user_data g uid).1 =
      { user_id := uid
        deleted_nodes := countScopedNodes g uid
        deleted_relationships := countIncidentRels g uid
        status := "success" } ∧
    countScopedNodes (delete_user_data g uid).2 uid = 0 := by
  have hif : ¬((countScopedNodes g uid == 0) = true) := by
    simpa using h
  constructor
  · unfold delete_user_data
    rw [if_neg hif]
  · unfold delete_user_data
    rw [if_neg hif]
    simp [countScopedNodes, filter_not_filter]

/-- Witness for delete_user_data_counts on the fixture graph with two
scoped nodes and one incident relationship. -/
theorem delete_user_data_counts_witness :
    countScopedNodes gDel "g" ≠ 0 ∧
    ((delete_user_data gDel "g").1 =
      { user_id := "g", deleted_nodes := 2, deleted_relationships := 1,
        status := "success" } ∧
     countScopedNodes (delete_user_data gDel "g").2 "g" = 0) :=
  ⟨by decide, delete_user_data_counts gDel "g" (by decide)⟩

/-- Helper: recording a session appends exactly one Episodic node scoped
to the user, so the scoped session count rises by one. -/
theorem countEpisodic_add_session (g : Graph) (s : String) (d : Nat)
    (uid un : String) (sn : Option Nat) (cf : Bool) (ep : String) :
    countEpisodic (add_session g s d uid un sn cf ep).2 uid =
      countEpisodic g uid + 1 := by
  simp [add_session, add_session_to_graph, countEpisodic, List.filter_append]

/-- C4: a record call with no explicit sequence number uses and returns
1 + the count of existing sessions scoped to the user identifier; hence
three sequential recordings for one user, starting from zero scoped
sessions, yield sequence numbers 1, 2, 3 in submission order. -/
theorem add_session_sequence :
    (∀ (g : Graph) (s : String) (d : Nat) (uid un ep : String),
      ((add_session g s d uid un none false ep).1).2 =
        countEpisodic g uid + 1) ∧
    (∀ (g : Graph) (s1 s2 s3 : String) (d1 d2 d3 : Nat)
        (uid un1 un2 un3 ep1 ep2 ep3 : String),
      countEpisodic g uid = 0 →
      ((add_session g s1 d1 uid un1 none false ep1).1).2 = 1 ∧
      ((add_session (add_session g s1 d1 uid un1 none false ep1).2
          s2 d2 uid un2 none false ep2).1).2 = 2 ∧
      ((add_session (add_session (add_session g s1 d1 uid un1 none false
          ep1).2 s2 d2 uid un2 none false ep2).2
          s3 d3 uid un3 none false ep3).1).2 = 3) := by
  constructor
  · intro g s d uid un ep
    rfl
  · intro g s1 s2 s3 d1 d2 d3 uid un1 un2 un3 ep1 ep2 ep3 h0
    have h1 : countEpisodic
        (add_session g s1 d1 uid un1 none false ep1).2 uid = 1 := by
      rw [countEpisodic_add_session, h0]
    have h2 : countEpisodic
        (add_session (add_session g s1 d1 uid un1 none false ep1).2
          s2 d2 uid un2 none false ep2).2 uid = 2 := by
      rw [countEpisodic_add_session, h1]
    refine ⟨?_, ?_, ?_⟩
    · show _get_next_session_number g uid false = 1
      simp [_get_next_session_number, h0]
    · show _get_next_session_number
        (add_session g s1 d1 uid un1 none false ep1).2 uid false = 2
      simp [_get_next_session_number, h1]
    · show _get_next_session_number
        (add_session (add_session g s1 d1 uid un1 none false ep1).2
          s2 d2 uid un2 none false ep2).2 uid false = 3
      simp [_get_next_session_number, h2]

/-- Witness for add_session_sequence: from the empty graph the three
sequential recordings for user "u" get numbers 1, 2, 3. -/
theorem add_session_sequence_witness :
    countEpisodic { nodes := [], edges := [] } "u" = 0 ∧
    (((add_session { nodes := [], edges := [] } "a" 0 "u" "Ann" none false
        "e1").1).2 = 1 ∧
     ((add_session (add_session { nodes := [], edges := [] } "a" 0 "u" "Ann"
        none false "e1").2 "b" 1 "u" "Ann" none false "e2").1).2 = 2 ∧
     ((add_session (add_session (add_session { nodes := [], edges := [] }
        "a" 0 "u" "Ann" none false "e1").2 "b" 1 "u" "Ann" none false
        "e2").2 "c" 2 "u" "Ann" none false "e3").1).2 = 3) :=
  ⟨rfl, add_session_sequence.2 { nodes := [], edges := [] } "a" "b" "c"
    0 1 2 "u" "Ann" "Ann" "Ann" "e1" "e2" "e3" rfl⟩

/-- C9: when the session-count query raises, _get_next_session_number
swallows the failure and returns 1 regardless of how many sessions exist;
concretely, after one session already exists for user "u", a record call
whose count query fails is assigned sequence number 1 again, leaving two
sessions named "Therapy Session 1" in the partition — a collision without
any concurrency. -/
theorem next_session_number_on_failure :
    (∀ (g : Graph) (uid : String), _get_next_session_number g uid true = 1) ∧
    (countEpisodic (add_session { nodes := [], edges := [] } "a" 0 "u" "Ann"
        none false "e1").2 "u" = 1 ∧
     ((add_session (add_session { nodes := [], edges := [] } "a" 0 "u" "Ann"
        none false "e1").2 "b" 1 "u" "Ann" none true "e2").1).2 = 1 ∧
     (((add_session (add_session { nodes := [], edges := [] } "a" 0 "u"
        "Ann" none false "e1").2 "b" 1 "u" "Ann" none true "e2").2).nodes.filter
          fun n => n.group_id == "u" && n.name == "Therapy Session 1").length
        = 2) :=
  ⟨fun _ _ => rfl, rfl, rfl, by decide⟩


/-- Helper: when the user node is matched and no scoped session lacks a
link, the link query creates nothing and returns 0 on an unchanged state. -/
theorem link_sessions_result (g : Graph) (u : Node) (uid : String)
    (hu : (g.nodes.any fun n =>
      n.labels.contains "Entity" && n.uuid == u.uuid) = true)
    (hnil : unlinkedSessions g u.uuid uid = []) :
    link_sessions_to_user g u uid false = (0, g) := by
  unfold link_sessions_to_user
  rw [if_neg Bool.false_ne_true, if_pos hu, hnil]
  simp

/-- Helper: when no Entity node bears the user uuid, the link query
matches no rows, creates nothing and returns 0. -/
theorem link_sessions_no_user (g : Graph) (u : Node) (uid : String)
    (hu : (g.nodes.any fun n =>
      n.labels.contains "Entity" && n.uuid == u.uuid) = false) :
    link_sessions_to_user g u uid false = (0, g) := by
  have h : ¬((g.nodes.any fun n =>
      n.labels.contains "Entity" && n.uuid == u.uuid) = true) := by
    rw [hu]; exact Bool.false_ne_true
  unfold link_sessions_to_user
  rw [if_neg Bool.false_ne_true, if_neg h]

/-- C7: link_sessions_to_user is idempotent and best-effort — a second
call in succession for the same user creates no new ownership links and
returns 0 on an unchanged state, and a failing query is swallowed,
returning 0 without mutating anything or raising to the caller. -/
theorem link_sessions_idempotent :
    (∀ (g : Graph) (u : Node) (uid : String),
      link_sessions_to_user (link_sessions_to_user g u uid false).2 u uid
          false =
        (0, (link_sessions_to_user g u uid false).2)) ∧
    (∀ (g : Graph) (u : Node) (uid : String),
      link_sessions_to_user g u uid true = (0, g)) := by
  constructor
  · intro g u uid
    by_cases hu : (g.nodes.any fun n =>
        n.labels.contains "Entity" && n.uuid == u.uuid) = true
    · have hg1 : (link_sessions_to_user g u uid false).2 =
          { g with edges := g.edges ++ ((unlinkedSessions g u.uuid uid).map
            (mkSessionLink u.uuid uid)) } := by
        unfold link_sessions_to_user
        rw [if_neg Bool.false_ne_true, if_pos hu]
      have hnodes : (link_sessions_to_user g u uid false).2.nodes =
          g.nodes := by
        rw [hg1]
      have hu1 : ((link_sessions_to_user g u uid false).2.nodes.any fun n =>
          n.labels.contains "Entity" && n.uuid == u.uuid) = true := by
        rw [hnodes]; exact hu
      have hnil : unlinkedSessions (link_sessions_to_user g u uid false).2
          u.uuid uid = [] := by
        unfold unlinkedSessions
        rw [hnodes, List.filter_eq_nil_iff]
        intro s hs hp
        simp only [Bool.and_eq_true, Bool.not_eq_true'] at hp
        obtain ⟨⟨hep, hgrp⟩, hnolink⟩ := hp
        have hlink : has_session_link (link_sessions_to_user g u uid false).2
            u.uuid s.uuid = true := by
          rw [hg1]
          show (g.edges ++ ((unlinkedSessions g u.uuid uid).map
            (mkSessionLink u.uuid uid))).any (fun e =>
              e.relType == "HAS_SESSION" && e.src == u.uuid &&
                e.dst == s.uuid) = true
          rw [List.any_append]
          rcases hl : has_session_link g u.uuid s.uuid with _ | _
          · apply Bool.or_eq_true_iff.mpr
            right
            rw [List.any_eq_true]
            refine ⟨mkSessionLink u.uuid uid s, ?_, ?_⟩
            · refine List.mem_map.mpr ⟨s, ?_, rfl⟩
              show s ∈ List.filter _ g.nodes
              refine List.mem_filter.mpr ⟨hs, ?_⟩
              show (s.labels.contains "Episodic" && s.group_id == uid &&
                !(has_session_link g u.uuid s.uuid)) = true
              rw [hep, hgrp, hl]
              rfl
            · simp [mkSessionLink]
          · exact Bool.or_eq_true_iff.mpr (Or.inl hl)
        rw [hlink] at hnolink
        exact absurd hnolink (by decide)
      exact link_sessions_result _ u uid hu1 hnil
    · rw [Bool.not_eq_true] at hu
      rw [link_sessions_no_user g u uid hu, link_sessions_no_user g u uid hu]
  · intro g u uid
    rfl

/-- Helper: a successful lookup returns the found node and leaves the
state unchanged. -/
theorem create_or_get_found (g : Graph) (name uid f : String) (t : Nat)
    (n : Node) (h : find_user_query g uid name = some n) :
    create_or_get_user_node g name uid false f t = (n, g) := by
  unfold create_or_get_user_node
  simp [h]

/-- Helper: an empty lookup creates and returns the fresh User node. -/
theorem create_or_get_creates (g : Graph) (name uid f : String) (t : Nat)
    (h : find_user_query g uid name = none) :
    create_or_get_user_node g name uid false f t =
      (mkUserNode name uid f t,
       { g with nodes := g.nodes ++ [mkUserNode name uid f t] }) := by
  unfold create_or_get_user_node
  simp [h]

/-- C5 (amended): calling create_or_get_user_node twice with the same
external identifier and display name returns the same internal uuid both
times; and whenever the lookup matches (in particular whenever a User
entity exists in the partition) the call writes nothing and returns a node
already stored — but that node is the query's first match, which the OR
name clause allows to be a non-User entity sharing the display name rather
than the User entity itself. -/
theorem create_or_get_idempotent_amended :
    (∀ (g : Graph) (name uid f1 f2 : String) (t1 t2 : Nat),
      ((create_or_get_user_node (create_or_get_user_node g name uid false
          f1 t1).2 name uid false f2 t2).1).uuid =
        ((create_or_get_user_node g name uid false f1 t1).1).uuid) ∧
    (∀ (g : Graph) (name uid f : String) (t : Nat) (n : Node),
      find_user_query g uid name = some n →
      create_or_get_user_node g name uid false f t = (n, g) ∧
        n ∈ g.nodes) := by
  constructor
  · intro g name uid f1 f2 t1 t2
    cases hf : find_user_query g uid name with
    | some n =>
      rw [create_or_get_found g name uid f1 t1 n hf,
        create_or_get_found g name uid f2 t2 n hf]
    | none =>
      rw [create_or_get_creates g name uid f1 t1 hf]
      have h2 : find_user_query
          { g with nodes := g.nodes ++ [mkUserNode name uid f1 t1] } uid
          name = some (mkUserNode name uid f1 t1) := by
        unfold find_user_query at hf ⊢
        show ((g.nodes ++ [mkUserNode name uid f1 t1]).find? _) = _
        rw [List.find?_append, hf]
        simp [mkUserNode]
      rw [create_or_get_found _ name uid f2 t2 _ h2]
  · intro g name uid f t n h
    exact ⟨create_or_get_found g name uid f t n h,
      List.mem_of_find?_eq_some h⟩

/-- Witness for create_or_get_idempotent_amended: the partition of the
fixture User node, looked up with the matching name. -/
theorem create_or_get_idempotent_witness :
    find_user_query gU "g" "Bob" = some userNodeG ∧
    (create_or_get_user_node gU "Bob" "g" false "f" 0 = (userNodeG, gU) ∧
      userNodeG ∈ gU.nodes) :=
  ⟨rfl, create_or_get_idempotent_amended.2 gU "Bob" "g" "f" 0 userNodeG rfl⟩

/-- C5 counterexample: in partition "g" a non-User entity named "Alice"
precedes the User entity in match order; the lookup with display name
"Alice" matches it first, so the call returns uuid "e1" and not the
(unique) stored User entity's uuid "u1". -/
theorem create_or_get_shadowed_counterexample :
    ((create_or_get_user_node gShadow "Alice" "g" false "fresh" 0).1).uuid
        = "e1" ∧
    (gShadow.nodes.filter fun n =>
      n.group_id == "g" && n.labels.contains "User") = [userNodeG] ∧
    userNodeG.uuid = "u1" ∧ ("e1" : String) ≠ "u1" := by
  refine ⟨rfl, ?_, rfl, by decide⟩
  decide

/-- Helper: when the lookup finds nothing in a well-formed store, the
partition holds no User node (a stored User would carry the Entity label
and match the User-label disjunct of the query). -/
theorem countUsers_zero_of_find_none (g : Graph) (uid name : String)
    (hwf : usersHaveEntityLabel g = true)
    (hf : find_user_query g uid name = none) :
    countUsers g uid = 0 := by
  unfold countUsers
  rw [List.length_eq_zero, List.filter_eq_nil_iff]
  intro n hn hp
  simp only [Bool.and_eq_true] at hp
  obtain ⟨hgid, husr⟩ := hp
  unfold usersHaveEntityLabel at hwf
  have hlab := List.all_eq_true.mp hwf n hn
  have hent : n.labels.contains "Entity" = true := by
    rcases Bool.or_eq_true_iff.mp hlab with h | h
    · rw [Bool.not_eq_true'] at h
      rw [husr] at h
      cases h
    · exact h
  have hnone := List.find?_eq_none.mp hf n hn
  apply hnone
  show (n.labels.contains "Entity" && n.group_id == uid &&
    (n.labels.contains "User" || n.name == name)) = true
  rw [hent, hgid, husr]
  rfl

/-- Helper: appending one node changes the per-partition User count by one
exactly when the appended node is a User of that partition. -/
theorem countUsers_append_single (g : Graph) (n0 : Node) (gid : String) :
    countUsers { g with nodes := g.nodes ++ [n0] } gid =
      countUsers g gid +
        (if n0.group_id = gid ∧ "User" ∈ n0.labels then 1 else 0) := by
  unfold countUsers
  show ((g.nodes ++ [n0]).filter _).length = _
  rw [List.filter_append, List.length_append]
  by_cases h1 : n0.group_id = gid
  · by_cases h2 : "User" ∈ n0.labels
    · simp [List.filter_cons, h1, h2]
    · simp [List.filter_cons, h1, h2]
  · simp [List.filter_cons, h1]

/-- Helper: create_or_get_user_node (lookups succeeding) keeps every
partition at one User at most. -/
theorem countUsers_create_or_get (g : Graph) (gid name uid f : String)
    (t : Nat) (hwf : usersHaveEntityLabel g = true)
    (hone : countUsers g gid ≤ 1) :
    countUsers (create_or_get_user_node g name uid false f t).2 gid ≤ 1 := by
  cases hf : find_user_query g uid name with
  | some n =>
    rw [create_or_get_found g name uid f t n hf]
    exact hone
  | none =>
    rw [create_or_get_creates g name uid f t hf, countUsers_append_single]
    by_cases hg : gid = uid
    · subst hg
      rw [countUsers_zero_of_find_none g gid name hwf hf]
      simp [mkUserNode]
    · rw [if_neg fun hc => hg (congrArg id hc.1).symm]
      simpa using hone

/-- Helper: create_or_get_user_node keeps label well-formedness (the node
it may create carries both the User and the Entity label). -/
theorem wf_create_or_get (g : Graph) (name uid f : String) (t : Nat)
    (hwf : usersHaveEntityLabel g = true) :
    usersHaveEntityLabel (create_or_get_user_node g name uid false f t).2 =
      true := by
  cases hf : find_user_query g uid name with
  | some n =>
    rw [create_or_get_found g name uid f t n hf]
    exact hwf
  | none =>
    rw [create_or_get_creates g name uid f t hf]
    unfold usersHaveEntityLabel at hwf ⊢
    show ((g.nodes ++ [mkUserNode name uid f t]).all _) = true
    rw [List.all_append, hwf]
    simp [mkUserNode]

/-- Helper: recording a session leaves the per-partition User count
unchanged (the appended node is Episodic, not a User). -/
theorem countUsers_add_session (g : Graph) (gid s : String) (d : Nat)
    (uid un : String) (sn : Option Nat) (cf : Bool) (ep : String) :
    countUsers (add_session g s d uid un sn cf ep).2 gid =
      countUsers g gid := by
  simp [add_session, add_session_to_graph, countUsers, List.filter_append,
    List.filter_cons]

/-- Helper: recording a session keeps label well-formedness. -/
theorem wf_add_session (g : Graph) (s : String) (d : Nat) (uid un : String)
    (sn : Option Nat) (cf : Bool) (ep : String)
    (hwf : usersHaveEntityLabel g = true) :
    usersHaveEntityLabel (add_session g s d uid un sn cf ep).2 = true := by
  unfold usersHaveEntityLabel at hwf ⊢
  show ((g.nodes ++ [_]).all _) = true
  rw [List.all_append, hwf]
  rfl

/-- Helper: linking touches only relationships, so the per-partition User
count is unchanged. -/
theorem countUsers_link (g : Graph) (gid : String) (u : Node)
    (uid : String) (qf : Bool) :
    countUsers (link_sessions_to_user g u uid qf).2 gid =
      countUsers g gid := by
  unfold link_sessions_to_user
  split
  · rfl
  · split
    · rfl
    · rfl

/-- Helper: deletion only removes nodes, so a partition at one User at
most stays at one User at most. -/
theorem countUsers_delete (g : Graph) (gid uid : String)
    (hone : countUsers g gid ≤ 1) :
    countUsers (delete_user_data g uid).2 gid ≤ 1 := by
  unfold delete_user_data
  split
  · exact hone
  · refine le_trans ?_ hone
    unfold countUsers
    show ((g.nodes.filter _).filter _).length ≤ ((g.nodes.filter _)).length
    exact ((List.filter_sublist g.nodes).filter _).length_le

/-- Helper: the session route's user-resolution step keeps every partition
at one User at most (lookups succeeding). -/
theorem countUsers_create_session_user (g : Graph) (gid uid fu : String)
    (t : Nat) (hwf : usersHaveEntityLabel g = true)
    (hone : countUsers g gid ≤ 1) :
    countUsers (create_session_user g uid false fu t).2 gid ≤ 1 := by
  unfold create_session_user
  cases hfl : find_user_by_label g uid with
  | some u =>
    simp only [hfl]
    exact hone
  | none =>
    simp only [hfl]
    exact countUsers_create_or_get g gid ("User_" ++ uid) uid fu t hwf hone

/-- C6 (amended): provided the user-lookup queries do not fail, each
operation — explicit user creation, session recording, linking, deletion,
and implicit creation on first session — maps a well-formed state with at
most one User in a partition to a state with at most one User in that
partition.  (When the lookup raises, create_or_get_user_node swallows the
exception and creates unconditionally, which can store a second User in
the partition — see the counterexample.) -/
theorem user_invariant_preserved (g : Graph) (gid : String)
    (hwf : usersHaveEntityLabel g = true) (hone : countUsers g gid ≤ 1) :
    (∀ (name uid f : String) (t : Nat),
      countUsers (create_or_get_user_node g name uid false f t).2 gid ≤ 1) ∧
    (∀ (s : String) (d : Nat) (uid un : String) (sn : Option Nat)
        (cf : Bool) (ep : String),
      countUsers (add_session g s d uid un sn cf ep).2 gid ≤ 1) ∧
    (∀ (u : Node) (uid : String) (qf : Bool),
      countUsers (link_sessions_to_user g u uid qf).2 gid ≤ 1) ∧
    (∀ uid : String, countUsers (delete_user_data g uid).2 gid ≤ 1) ∧
    (∀ (uid ss : String) (d : Nat) (sn : Option Nat) (cf : Bool)
        (fu fe : String) (t : Nat),
      countUsers (create_session g uid ss d sn none false cf fu fe t).2 gid
        ≤ 1) := by
  refine ⟨?_, ?_, ?_, ?_, ?_⟩
  · intro name uid f t
    exact countUsers_create_or_get g gid name uid f t hwf hone
  · intro s d uid un sn cf ep
    rw [countUsers_add_session]
    exact hone
  · intro u uid qf
    rw [countUsers_link]
    exact hone
  · intro uid
    exact countUsers_delete g gid uid hone
  · intro uid ss d sn cf fu fe t
    show countUsers
      (add_session (create_session_user g uid false fu t).2 ss d uid
        ((create_session_user g uid false fu t).1).name sn cf fe).2 gid ≤ 1
    rw [countUsers_add_session]
    exact countUsers_create_session_user g gid uid fu t hwf hone

/-- Witness for user_invariant_preserved: the fixture partition with its
single User, through a create_or_get call. -/
theorem user_invariant_preserved_witness :
    usersHaveEntityLabel gU = true ∧ countUsers gU "g" ≤ 1 ∧
    countUsers (create_or_get_user_node gU "Alice" "g" false "u2" 5).2 "g"
      ≤ 1 :=
  ⟨rfl, by decide,
    (user_invariant_preserved gU "g" rfl (by decide)).1 "Alice" "g" "u2" 5⟩

/-- C6 counterexample: with one User already stored in partition "g", a
create_or_get_user_node call whose lookup query raises falls through to
unconditional creation and leaves two User entities in the partition. -/
theorem user_duplicate_on_find_failure :
    countUsers gU "g" = 1 ∧
    countUsers (create_or_get_user_node gU "Alice" "g" true "u2" 5).2 "g"
      = 2 := by
  exact ⟨rfl, rfl⟩

/-- C8 (amended): an exception raised during a graph or knowledge-engine
call is caught at the route boundary and surfaced with the upstream
message embedded in the detail — as a 400 for user creation, deletion,
session recording and both profile search endpoints (plain and
center-node), but as a 404 (not a 400) for GET
/api/v1/users/\x7buser_id\x7d, whose catch-all also maps upstream
failures to 404. -/
theorem route_upstream_error_statuses :
    (∀ (g : Graph) (un uid msg fu : String) (ff : Bool) (t : Nat),
      (create_user g un uid (some msg) ff fu t).1 =
        .err 400 ("Failed to create user: " ++ msg)) ∧
    (∀ (g : Graph) (uid msg : String),
      (delete_user_route g uid (some msg)).1 =
        .err 400 ("Failed to delete user data: " ++ msg)) ∧
    (∀ (g : Graph) (uid ss : String) (d : Nat) (sn : Option Nat)
        (msg : String) (ff cf : Bool) (fu fe : String) (t : Nat),
      (create_session g uid ss d sn (some msg) ff cf fu fe t).1 =
        .err 400 ("Failed to add session: " ++ msg)) ∧
    (∀ (g : Graph) (q uid : String) (rel : Edge → Bool) (msg : String),
      search_profile_route g q uid rel (some msg) =
        .err 400 ("Failed to search profile: " ++ msg)) ∧
    (∀ (g : Graph) (q c uid : String) (rel : Edge → Bool) (msg : String),
      search_with_center_node g q c uid rel (some msg) =
        .err 400 ("Failed to search profile: " ++ msg)) ∧
    (∀ (g : Graph) (uid msg : String),
      get_user g uid (some msg) = .err 404 ("User not found: " ++ msg)) :=
  ⟨fun _ _ _ _ _ _ _ => rfl, fun _ _ _ => rfl,
   fun _ _ _ _ _ _ _ _ _ _ _ => rfl, fun _ _ _ _ _ => rfl,
   fun _ _ _ _ _ _ => rfl, fun _ _ _ => rfl⟩

/-- C8 counterexample: an upstream failure during GET /api/v1/users/g —
with the user present, so this is not the distinguished not-found case —
is surfaced with status 404, not 400. -/
theorem get_user_upstream_counterexample :
    get_user gU "g" (some "boom") = .err 404 ("User not found: boom") ∧
    (get_user gU "g" (some "boom")).status = 404 ∧ (404 : Nat) ≠ 400 ∧
    get_user gU "g" none =
      .ok 200 { user_id := "g", user_name := "Bob", uuid := "u1",
                created_at := 0, summary := none } :=
  ⟨rfl, rfl, by decide, rfl⟩

/-- C10: the POST /api/v1/users response echoes user_id and user_name from
the request body while uuid, created_at and summary come from the node the
service returned; when an existing stored User with a different name is
retrieved, the created response carries the request's name, so it can
disagree with what GET /api/v1/users/\x7buser_id\x7d (which reports the
stored name) returns for the same uuid. -/
theorem create_user_echoes_request (g : Graph) (name uid f : String)
    (t : Nat) (n : Node) (h : find_user_query g uid name = some n) :
    (create_user g name uid none false f t).1 =
      .ok 201 { user_id := uid, user_name := name, uuid := n.uuid,
                created_at := n.created_at, summary := n.summary } ∧
    ((create_user gU "Alice" "g" none false "f" 9).1 =
      .ok 201 { user_id := "g", user_name := "Alice", uuid := "u1",
                created_at := 0, summary := none } ∧
     get_user gU "g" none =
      .ok 200 { user_id := "g", user_name := "Bob", uuid := "u1",
                created_at := 0, summary := none }) := by
  constructor
  · show (create_user g name uid none false f t).1 = _
    unfold create_user
    rw [create_or_get_found g name uid f t n h]
  · exact ⟨rfl, rfl⟩

/-- Witness for create_user_echoes_request: the fixture store holds a User
named "Bob"; a create request with name "Alice" matches it and the
response echoes "Alice" with the stored uuid. -/
theorem create_user_echoes_request_witness :
    find_user_query gU "g" "Alice" = some userNodeG ∧
    (create_user gU "Alice" "g" none false "f" 9).1 =
      .ok 201 { user_id := "g", user_name := "Alice", uuid := "u1",
                created_at := 0, summary := none } :=
  ⟨rfl, (create_user_echoes_request gU "Alice" "g" "f" 9 userNodeG rfl).1⟩

/-- C1: the profile search route passes no partition restriction to the
engine, so a fact scoped to partition "u2" is returned for a request whose
user_id is "u1" — the returned facts are not limited to graph elements
whose group identifier equals the request's user_id. -/
theorem profile_search_returns_foreign_partition :
    search_profile_route { nodes := [], edges := [leakEdge] } "ski" "u1"
        (fun _ => true) none =
      .ok 200 { query := "ski"
                results := [{ uuid := "f1", fact := "likes skiing",
                              valid_at := none, invalid_at := none }]
                count := 1 } ∧
    leakEdge.group_id = "u2" ∧ ("u2" : String) ≠ "u1" :=
  ⟨rfl, rfl, by decide⟩
